import Mathlib

/-!
A shallow embedding of the ESP32 Logger core: `src/Logger.cpp`,
`src/Logger.h`, `src/LoggerConfig.h` and `src/NonBlockingConsoleBackend.h`.

Modelling conventions:
* A C string is the list of its bytes strictly before the NUL terminator
  (`List Nat`); a possibly-NULL `const char *` is an `Option (List Nat)`.
* A FreeRTOS mutex is modelled by a `Bool` in the logger state recording
  whether the mutex exists (`createMutexSafe` returns NULL before the
  scheduler starts), together with a per-call environment flag recording
  whether the bounded-timeout `xSemaphoreTake` succeeded on this call.
* 32-bit machine arithmetic (`millis()`, the `uint32_t` timestamps of the
  rate limiter) is modelled on `Nat` with explicit reduction mod 2^32.
* Side effects of one call (backend writes, subscriber notification, the
  `esp_log_write` fallback) are returned explicitly in an `Effects` value;
  counters and tables are threaded through a `Logger` state record.
-/

/-- The `esp_log_level_t` enum: NONE=0, ERROR=1, WARN=2, INFO=3, DEBUG=4,
VERBOSE=5.  Comparisons in the source are integer comparisons on the enum
values, modelled through `LogLevel.toNat`. -/
inductive LogLevel
  | none
  | error
  | warn
  | info
  | debug
  | verbose
deriving DecidableEq

/-- Numeric value of an `esp_log_level_t`. -/
def LogLevel.toNat : LogLevel → Nat
  | LogLevel.none => 0
  | LogLevel.error => 1
  | LogLevel.warn => 2
  | LogLevel.info => 3
  | LogLevel.debug => 4
  | LogLevel.verbose => 5

/-- `Logger::levelToString`, reduced to the single character it returns
(as a byte): "N","E","W","I","D","V".  (No default case is reachable for
a well-formed enum value.) -/
def levelToChar : LogLevel → Nat
  | LogLevel.none => 78
  | LogLevel.error => 69
  | LogLevel.warn => 87
  | LogLevel.info => 73
  | LogLevel.debug => 68
  | LogLevel.verbose => 86

/-- `strncmp(a, b, n) == 0` on NUL-terminated C strings, where each list
holds the bytes strictly before the terminator.  The comparison stops at
the first difference, at a terminator on either side, or after `n` bytes. -/
def strncmpEq : List Nat → List Nat → Nat → Bool
  | _, _, 0 => true
  | [], [], _ + 1 => true
  | [], _ :: _, _ + 1 => false
  | _ :: _, [], _ + 1 => false
  | a :: as, b :: bs, n + 1 => a == b && strncmpEq as bs n

/-- `CONFIG_LOG_SUBSCRIBER_TAG_SIZE` (Logger.h). -/
def CONFIG_LOG_SUBSCRIBER_TAG_SIZE : Nat := 32

/-- `CONFIG_LOG_SUBSCRIBER_MSG_SIZE` (Logger.h). -/
def CONFIG_LOG_SUBSCRIBER_MSG_SIZE : Nat := 200

/-- `CONFIG_LOG_MAX_TAGS` (Logger.h). -/
def CONFIG_LOG_MAX_TAGS : Nat := 32

/-- `LoggerConfig::RATE_LIMIT_WINDOW_MS` (LoggerConfig.h). -/
def RATE_LIMIT_WINDOW_MS : Nat := 1000

/-- One entry of `Logger::tagLevels_`: an owned (possibly truncated) copy
of the tag string plus its override level. -/
structure TagEntry where
  tag : List Nat
  level : LogLevel
deriving DecidableEq

/-- The per-call environment: values the call reads from the platform
(`millis()`, `pcTaskGetName`, ISR status) and the outcome of each bounded
mutex acquisition / allocation attempted during the call. -/
structure Env where
  now : Nat
  taskName : List Nat
  inIsrContext : Bool
  rateLockOk : Bool
  tagLockOk : Bool
  backendLockOk : Bool
  subscriberLockOk : Bool
  fmtBufferOk : Bool
  msgBufferOk : Bool
  queueHasSpace : Bool
deriving DecidableEq

/-- The Logger's mutable state (Logger.h private section).  Mutex fields
record whether the corresponding mutex exists (`createMutexSafe` returned
non-NULL); `subscribers` holds the registered callback identifiers in slot
order (a callback pointer is modelled by a `Nat`; the NULL pointer is
`Option.none` at the call interface, so registered entries are non-null by
construction); `queueExists` records `subscriberQueue != nullptr`. -/
structure Logger where
  isLoggingEnabled : Bool
  globalLogLevel : LogLevel
  tagLevels : List TagEntry
  tagMutex : Bool
  maxLogsPerSecond : Nat
  rateLimitMutex : Bool
  lastLogTime : Nat
  logCounter : Nat
  droppedLogs : Nat
  mutexTimeouts : Nat
  backendMutex : Bool
  subscribers : List Nat
  subscriberMutex : Bool
  queueExists : Bool
deriving DecidableEq

/-- The linear scan over `tagLevels_` shared by `getTagLevel` and
`isLevelEnabledForTag`: the first entry with
`strncmp(entry.tag, tag, CONFIG_LOG_SUBSCRIBER_TAG_SIZE) == 0`. -/
def lookupTagLevel : List TagEntry → List Nat → Option LogLevel
  | [], _ => Option.none
  | e :: rest, t =>
      if strncmpEq e.tag t CONFIG_LOG_SUBSCRIBER_TAG_SIZE then some e.level
      else lookupTagLevel rest t

/-- `Logger::isLevelEnabledForTag` (Logger.cpp:378).  When the tag mutex
exists and is acquired the effective level is the tag override if the scan
finds one, else the global level; with no mutex, or on acquisition
timeout, the global level is used (no timeout counter is incremented
here). -/
def Logger.isLevelEnabledForTag (s : Logger) (env : Env)
    (tag : Option (List Nat)) (level : LogLevel) : Bool :=
  if !s.isLoggingEnabled then false
  else if level = LogLevel.none then false
  else
    match tag with
    | Option.none => decide (level.toNat ≤ s.globalLogLevel.toNat)
    | some t =>
        let eff :=
          if s.tagMutex && env.tagLockOk then
            (lookupTagLevel s.tagLevels t).getD s.globalLogLevel
          else s.globalLogLevel
        decide (level.toNat ≤ eff.toNat)

/-- 2^32, the modulus of `uint32_t` arithmetic. -/
def UINT32_MOD : Nat := 4294967296

/-- `uint32_t elapsed = currentTime - lastLogTime`: wrapping 32-bit
subtraction, for operands below 2^32. -/
def elapsed32 (currentTime lastLogTime : Nat) : Nat :=
  (currentTime + UINT32_MOD - lastLogTime) % UINT32_MOD

/-- `Logger::checkRateLimit` (Logger.cpp:411).  Returns the updated state
and whether the call is admitted. -/
def Logger.checkRateLimit (s : Logger) (env : Env) : Logger × Bool :=
  if s.maxLogsPerSecond = 0 then (s, true)
  else if !s.rateLimitMutex then (s, true)
  else if !env.rateLockOk then
    ({ s with mutexTimeouts := s.mutexTimeouts + 1 }, false)
  else
    let elapsed := elapsed32 env.now s.lastLogTime
    if RATE_LIMIT_WINDOW_MS ≤ elapsed then
      ({ s with lastLogTime := env.now, logCounter := 1 }, true)
    else if s.logCounter < s.maxLogsPerSecond then
      ({ s with logCounter := s.logCounter + 1 }, true)
    else
      ({ s with droppedLogs := s.droppedLogs + 1 }, false)

/-- Body of the `doSetTagLevel` lambda in `Logger::setTagLevel`
(Logger.cpp:318), with the source's two loops fused into one scan: update
the level of the first entry matching the untruncated tag `t` under
`strncmp(..., 32)` in place; if no entry matches, append the truncated
copy `stored` when `canAppend` holds.  `canAppend` is the capacity test
`tagLevelCount_ < CONFIG_LOG_MAX_TAGS` evaluated on the whole table before
the scan. -/
def doSetTagLevel (t stored : List Nat) (lvl : LogLevel) (canAppend : Bool) :
    List TagEntry → List TagEntry
  | [] => if canAppend then [⟨stored, lvl⟩] else []
  | e :: rest =>
      if strncmpEq e.tag t CONFIG_LOG_SUBSCRIBER_TAG_SIZE then
        ⟨e.tag, lvl⟩ :: rest
      else
        e :: doSetTagLevel t stored lvl canAppend rest

/-- `Logger::setTagLevel` (Logger.cpp:309).  A NULL or empty tag returns
immediately; the stored copy is truncated to `CONFIG_LOG_SUBSCRIBER_TAG_SIZE - 1`
bytes; with no mutex the update runs directly, otherwise it runs only when
the lock is acquired, and on timeout only the diagnostic counter moves.
(The `esp_log_level_set` call into ESP-IDF is outside the model.) -/
def Logger.setTagLevel (s : Logger) (env : Env) (tag : Option (List Nat))
    (lvl : LogLevel) : Logger :=
  match tag with
  | Option.none => s
  | some t =>
      if t.length = 0 then s
      else
        let stored := t.take (CONFIG_LOG_SUBSCRIBER_TAG_SIZE - 1)
        let canAppend := decide (s.tagLevels.length < CONFIG_LOG_MAX_TAGS)
        if !s.tagMutex then
          { s with tagLevels := doSetTagLevel t stored lvl canAppend s.tagLevels }
        else if env.tagLockOk then
          { s with tagLevels := doSetTagLevel t stored lvl canAppend s.tagLevels }
        else
          { s with mutexTimeouts := s.mutexTimeouts + 1 }

/-- `LogSubscriberMessage` (Logger.h:152): the fixed-size copy placed on
the subscriber queue.  The char arrays are modelled by their NUL-terminated
content, hence at most `TAG_SIZE - 1` resp. `MSG_SIZE - 1` bytes. -/
structure LogSubscriberMessage where
  level : LogLevel
  tag : List Nat
  message : List Nat
deriving DecidableEq

/-- Outcome of one `Logger::notifySubscribers` call. -/
inductive NotifyOutcome
  | skipped
  | queued (m : LogSubscriberMessage)
  | queueFull (m : LogSubscriberMessage)
  | syncInvoke (callbacks : List Nat) (level : LogLevel)
      (tag : Option (List Nat)) (message : Option (List Nat))
deriving DecidableEq

/-- `Logger::notifySubscribers` (Logger.cpp:837).  Fast-rejects with no
subscribers or from ISR context; with a queue it enqueues a truncated
copy (dropped without trace when the queue is full); otherwise it falls
back to synchronous invocation of a snapshot of the callbacks, which
requires the subscriber mutex to exist and be acquired. -/
def Logger.notifySubscribers (s : Logger) (env : Env) (level : LogLevel)
    (tag : Option (List Nat)) (message : Option (List Nat)) : NotifyOutcome :=
  if s.subscribers.length = 0 then NotifyOutcome.skipped
  else if env.inIsrContext then NotifyOutcome.skipped
  else if s.queueExists then
    let m : LogSubscriberMessage :=
      { level := level
        tag := (tag.getD []).take (CONFIG_LOG_SUBSCRIBER_TAG_SIZE - 1)
        message := (message.getD []).take (CONFIG_LOG_SUBSCRIBER_MSG_SIZE - 1) }
    if env.queueHasSpace then NotifyOutcome.queued m else NotifyOutcome.queueFull m
  else if s.subscriberMutex && env.subscriberLockOk then
    NotifyOutcome.syncInvoke s.subscribers level tag message
  else NotifyOutcome.skipped

/-- The composed full record
`snprintf(fullMessage, ..., "[%lu][%s][%s] %s: %s\r\n", millis(),
pcTaskGetName(NULL) ?: "?", levelToString(level), tag ?: "?", msg)`, kept
as its fields: the byte-level rendering is injective in these fields and
is not itself under test.  A NULL tag renders as "?" (byte 63). -/
structure Record where
  timestamp : Nat
  task : List Nat
  levelChar : Nat
  tag : List Nat
  message : List Nat
deriving DecidableEq

/-- Composition of the full record written to the backends. -/
def composeRecord (env : Env) (level : LogLevel) (tag : Option (List Nat))
    (message : List Nat) : Record :=
  { timestamp := env.now
    task := env.taskName
    levelChar := levelToChar level
    tag := tag.getD [63]
    message := message }

/-- `Logger::writeToBackends` (Logger.cpp:451): with no backend mutex the
loop over the registered backends runs directly; with a mutex it runs only
when the lock is acquired within its timeout, else nothing is written.
The result is the record handed to every registered backend (`some`), or
`Option.none` when the fan-out loop did not run. -/
def Logger.writeToBackends (s : Logger) (env : Env) (r : Record) : Option Record :=
  if !s.backendMutex then some r
  else if env.backendLockOk then some r
  else Option.none

/-- The externally visible effects of one logging call.  `notify` is
`Option.none` when `notifySubscribers` was never invoked; `espFallback`
records an `esp_log_write(level, tag, "%s", msg)` fallback. -/
structure Effects where
  writeOut : Option Record
  notify : Option NotifyOutcome
  espFallback : Option (LogLevel × Option (List Nat) × List Nat)
deriving DecidableEq

/-- No effect at all (early return). -/
def noEffects : Effects := ⟨Option.none, Option.none, Option.none⟩

/-- Result of `vsnprintf(formatBuffer, CONFIG_LOG_BUFFER_SIZE, format, args)`.
Printf substitution is outside the model: the formatted buffer is
identified with the format text.  The source contains no branch on a NULL
format (undefined behaviour in C); the model maps that unguarded call to
the empty formatted string. -/
def vsnprintfModel (format : Option (List Nat)) : List Nat := format.getD []

/-- `Logger::logV` (Logger.cpp:481).  Filter, rate admission, format-buffer
acquisition, formatting, subscriber notification, second buffer, record
composition and backend fan-out (with the `esp_log_write` fallback when the
second buffer is unavailable). -/
def Logger.logV (s : Logger) (env : Env) (level : LogLevel)
    (tag : Option (List Nat)) (format : Option (List Nat)) : Logger × Effects :=
  if !(s.isLevelEnabledForTag env tag level) then (s, noEffects)
  else
    let p := s.checkRateLimit env
    if !p.2 then (p.1, noEffects)
    else if !env.fmtBufferOk then (p.1, noEffects)
    else
      let msg := vsnprintfModel format
      let n := p.1.notifySubscribers env level tag (some msg)
      if env.msgBufferOk then
        (p.1, { writeOut := p.1.writeToBackends env (composeRecord env level tag msg)
                notify := some n
                espFallback := Option.none })
      else
        (p.1, { writeOut := Option.none
                notify := some n
                espFallback := some (level, tag, msg) })

/-- `Logger::log` (Logger.cpp:472): filter, then delegate to `logV` (which
re-checks the filter). -/
def Logger.log (s : Logger) (env : Env) (level : LogLevel)
    (tag : Option (List Nat)) (format : Option (List Nat)) : Logger × Effects :=
  if !(s.isLevelEnabledForTag env tag level) then (s, noEffects)
  else s.logV env level tag format

/-- `Logger::logDirect` (Logger.cpp:590): NULL-message guard, filter,
subscriber notification and backend write; no rate admission and no
counter updates of any kind (the state is returned unchanged). -/
def Logger.logDirect (s : Logger) (env : Env) (level : LogLevel)
    (tag : Option (List Nat)) (message : Option (List Nat)) : Logger × Effects :=
  match message with
  | Option.none => (s, noEffects)
  | some m =>
      if !(s.isLevelEnabledForTag env tag level) then (s, noEffects)
      else
        let n := s.notifySubscribers env level tag (some m)
        if env.msgBufferOk then
          (s, { writeOut := s.writeToBackends env (composeRecord env level tag m)
                notify := some n
                espFallback := Option.none })
        else
          (s, { writeOut := Option.none
                notify := some n
                espFallback := some (level, tag, m) })

/-- `Logger::MAX_SUBSCRIBERS` (Logger.h:291). -/
def Logger.MAX_SUBSCRIBERS : Nat := 4

/-- `Logger::addLogSubscriber` (Logger.cpp:648).  Rejects a NULL callback,
a lock-acquisition timeout, a full registry, and a duplicate; otherwise
appends in the next free slot. -/
def Logger.addLogSubscriber (s : Logger) (env : Env) (callback : Option Nat) :
    Logger × Bool :=
  match callback with
  | Option.none => (s, false)
  | some c =>
      if s.subscriberMutex && !env.subscriberLockOk then (s, false)
      else
        if s.subscribers.length < Logger.MAX_SUBSCRIBERS then
          if s.subscribers.contains c then (s, false)
          else ({ s with subscribers := s.subscribers ++ [c] }, true)
        else (s, false)

/-- The shift-down loop of `Logger::removeLogSubscriber`: remove the first
occurrence of `c`, keeping the order of the remaining entries. -/
def removeFirstCallback : List Nat → Nat → List Nat
  | [], _ => []
  | x :: rest, c => if x = c then rest else x :: removeFirstCallback rest c

/-- `Logger::removeLogSubscriber` (Logger.cpp:685).  Rejects a NULL
callback, a lock-acquisition timeout, and an unregistered callback;
otherwise removes the first matching slot and shifts the rest down. -/
def Logger.removeLogSubscriber (s : Logger) (env : Env) (callback : Option Nat) :
    Logger × Bool :=
  match callback with
  | Option.none => (s, false)
  | some c =>
      if s.subscriberMutex && !env.subscriberLockOk then (s, false)
      else if s.subscribers.contains c then
        ({ s with subscribers := removeFirstCallback s.subscribers c }, true)
      else (s, false)

/-- Counter state of `NonBlockingConsoleBackend`
(NonBlockingConsoleBackend.h). -/
structure NonBlockingConsoleBackend where
  droppedBytes : Nat
  droppedMessages : Nat
  partialWrites : Nat
deriving DecidableEq

/-- `NonBlockingConsoleBackend::MIN_BUFFER_SPACE`. -/
def MIN_BUFFER_SPACE : Nat := 20

/-- `NonBlockingConsoleBackend::TRUNCATION_MARKER` ("...\r\n") as bytes. -/
def TRUNCATION_MARKER : List Nat := [46, 46, 46, 13, 10]

/-- `NonBlockingConsoleBackend::TRUNCATION_MARKER_LEN`. -/
def TRUNCATION_MARKER_LEN : Nat := 5

/-- `NonBlockingConsoleBackend::write(const char*, size_t)`
(NonBlockingConsoleBackend.h:45).  `available` is
`Serial.availableForWrite()`; `Serial.write(p, n)` with `n ≤ available` is
modelled as writing all `n` bytes.  Returns the updated counters and the
byte sequence passed to the transport. -/
def NonBlockingConsoleBackend.write (st : NonBlockingConsoleBackend)
    (logMessage : Option (List Nat)) (available : Nat) :
    NonBlockingConsoleBackend × List Nat :=
  match logMessage with
  | Option.none => (st, [])
  | some m =>
      if m.length = 0 then (st, [])
      else if available < MIN_BUFFER_SPACE then
        ({ st with droppedMessages := st.droppedMessages + 1
                   droppedBytes := st.droppedBytes + m.length }, [])
      else if m.length ≤ available then (st, m)
      else
        let toWrite := available - TRUNCATION_MARKER_LEN
        if 0 < toWrite then
          ({ st with partialWrites := st.partialWrites + 1
                     droppedBytes := st.droppedBytes + (m.length - toWrite) },
           m.take toWrite ++ TRUNCATION_MARKER)
        else
          ({ st with droppedMessages := st.droppedMessages + 1
                     droppedBytes := st.droppedBytes + m.length }, [])

/-- Spec-side definition for the refinement claim C1, following the spec's
words: "`effective_threshold` is the tag override if set, else the global
level", with "an entry for the tag exists" read as plain string equality
of the queried tag with a stored entry's tag. -/
def effectiveThresholdSpec (s : Logger) (tag : Option (List Nat)) : LogLevel :=
  match tag with
  | Option.none => s.globalLogLevel
  | some t =>
      match s.tagLevels.find? (fun e => decide (e.tag = t)) with
      | some e => e.level
      | Option.none => s.globalLogLevel

/-- A concrete logger state used by witnesses: logging enabled, global
level INFO, one tag override ("AB" → ERROR), all mutexes created, rate
limit 5 logs/s with a window opened at t=1000 holding 3 accepted calls. -/
def sampleLogger : Logger :=
  { isLoggingEnabled := true
    globalLogLevel := LogLevel.info
    tagLevels := [⟨[65, 66], LogLevel.error⟩]
    tagMutex := true
    maxLogsPerSecond := 5
    rateLimitMutex := true
    lastLogTime := 1000
    logCounter := 3
    droppedLogs := 0
    mutexTimeouts := 0
    backendMutex := true
    subscribers := [11, 22]
    subscriberMutex := true
    queueExists := true }

/-- A concrete call environment used by witnesses: every bounded lock
acquired, both pool buffers available, queue has space, not in ISR. -/
def sampleEnv : Env :=
  { now := 1500
    taskName := [77]
    inIsrContext := false
    rateLockOk := true
    tagLockOk := true
    backendLockOk := true
    subscriberLockOk := true
    fmtBufferOk := true
    msgBufferOk := true
    queueHasSpace := true }

theorem strncmpEq_eq_iff : ∀ (n : Nat) (a b : List Nat), a.length < n →
    (strncmpEq a b n = true ↔ a = b)
  | 0, _, _, h => absurd h (by omega)
  | _ + 1, [], [], _ => by simp [strncmpEq]
  | _ + 1, [], _ :: _, _ => by simp [strncmpEq]
  | _ + 1, _ :: _, [], _ => by simp [strncmpEq]
  | n + 1, x :: xs, y :: ys, h => by
      have ih := strncmpEq_eq_iff n xs ys (by simp at h; omega)
      simp [strncmpEq, Bool.and_eq_true, beq_iff_eq, ih]

theorem lookupTagLevel_eq_find {entries : List TagEntry} {t : List Nat}
    (hwf : ∀ e ∈ entries, e.tag.length ≤ 31) :
    lookupTagLevel entries t =
      (entries.find? (fun e => decide (e.tag = t))).map TagEntry.level := by
  induction entries with
  | nil => rfl
  | cons e rest ih =>
      have he : e.tag.length < CONFIG_LOG_SUBSCRIBER_TAG_SIZE := by
        have := hwf e (List.mem_cons_self e rest)
        simp [CONFIG_LOG_SUBSCRIBER_TAG_SIZE]; omega
      have hrest : ∀ e' ∈ rest, e'.tag.length ≤ 31 := fun e' h' =>
        hwf e' (List.mem_cons_of_mem e h')
      by_cases hcase : e.tag = t
      · have htrue : strncmpEq e.tag t CONFIG_LOG_SUBSCRIBER_TAG_SIZE = true :=
          (strncmpEq_eq_iff _ _ _ he).mpr hcase
        simp only [lookupTagLevel, if_pos htrue]
        rw [List.find?_cons_of_pos _ (by simp [hcase])]
        rfl
      · have hne : strncmpEq e.tag t CONFIG_LOG_SUBSCRIBER_TAG_SIZE ≠ true := fun hc =>
          hcase ((strncmpEq_eq_iff _ _ _ he).mp hc)
        simp only [lookupTagLevel, if_neg hne]
        rw [ih hrest, List.find?_cons_of_neg]
        simp [hcase]

/-- C1: assuming logging is enabled and the level is not NONE (and the tag
mutex exists and is acquired on this call, over a well-formed tag table),
`isLevelEnabledForTag(tag, level)` returns true iff
`level <= effective_threshold(tag)`, where the effective threshold is the
tag's override when an entry for the tag exists and the global level
otherwise; and `log`/`logV` hand a record to the backend fan-out only when
this predicate holds. -/
theorem c1_filtering_iff_effective_threshold (s : Logger) (env : Env)
    (tag : Option (List Nat)) (level : LogLevel)
    (hen : s.isLoggingEnabled = true) (hlvl : level ≠ LogLevel.none)
    (hm : s.tagMutex = true) (hl : env.tagLockOk = true)
    (hwf : ∀ e ∈ s.tagLevels, e.tag.length ≤ 31) :
    (s.isLevelEnabledForTag env tag level = true ↔
       level.toNat ≤ (effectiveThresholdSpec s tag).toNat)
    ∧ (∀ (env2 : Env) (fmt : Option (List Nat)),
        ((s.logV env2 level tag fmt).2.writeOut).isSome = true →
          s.isLevelEnabledForTag env2 tag level = true)
    ∧ (∀ (env2 : Env) (fmt : Option (List Nat)),
        ((s.log env2 level tag fmt).2.writeOut).isSome = true →
          s.isLevelEnabledForTag env2 tag level = true) := by
  refine ⟨?_, ?_, ?_⟩
  · cases tag with
    | none => simp [Logger.isLevelEnabledForTag, effectiveThresholdSpec, hen, hlvl]
    | some t =>
        have hlook := lookupTagLevel_eq_find (t := t) hwf
        simp only [Logger.isLevelEnabledForTag, effectiveThresholdSpec, hen, hm, hl, hlvl,
          Bool.not_true, Bool.and_self, if_false, Bool.false_eq_true, ite_false, ite_true,
          decide_eq_true_eq]
        rw [hlook]
        cases hf : List.find? (fun e => decide (e.tag = t)) s.tagLevels with
        | none => simp
        | some e => simp
  · intro env2 fmt h
    by_cases hfil : s.isLevelEnabledForTag env2 tag level = true
    · exact hfil
    · exfalso
      rw [Logger.logV] at h
      simp [hfil, noEffects] at h
  · intro env2 fmt h
    by_cases hfil : s.isLevelEnabledForTag env2 tag level = true
    · exact hfil
    · exfalso
      rw [Logger.log] at h
      simp [hfil, noEffects] at h

theorem c1_filtering_iff_effective_threshold_witness :
    sampleLogger.isLoggingEnabled = true
    ∧ (Logger.isLevelEnabledForTag sampleLogger sampleEnv (some [65, 66]) LogLevel.warn = true ↔
        LogLevel.warn.toNat ≤ (effectiveThresholdSpec sampleLogger (some [65, 66])).toNat) :=
  ⟨by decide,
   (c1_filtering_iff_effective_threshold sampleLogger sampleEnv (some [65, 66]) LogLevel.warn
      rfl (by decide) rfl rfl (by decide)).1⟩

/-- C2: `checkRateLimit` is fixed-window admission: `maxLogsPerSecond = 0`
always admits; otherwise, with the window elapsed (wrapping 32-bit
subtraction) at least 1000 ms the window restarts at `now` with count 1 and
the call is admitted; below the window bound a count under the maximum is
incremented and admitted, an exhausted count increments the dropped-total
and rejects; a rate-lock acquisition timeout rejects and increments the
timeout-diagnostic counter. -/
theorem c2_rate_limit_fixed_window (s : Logger) (env : Env) :
    (s.maxLogsPerSecond = 0 → s.checkRateLimit env = (s, true))
    ∧ (s.maxLogsPerSecond ≠ 0 → s.rateLimitMutex = true → env.rateLockOk = true →
        RATE_LIMIT_WINDOW_MS ≤ elapsed32 env.now s.lastLogTime →
        s.checkRateLimit env =
          ({ s with lastLogTime := env.now, logCounter := 1 }, true))
    ∧ (s.maxLogsPerSecond ≠ 0 → s.rateLimitMutex = true → env.rateLockOk = true →
        elapsed32 env.now s.lastLogTime < RATE_LIMIT_WINDOW_MS →
        s.logCounter < s.maxLogsPerSecond →
        s.checkRateLimit env = ({ s with logCounter := s.logCounter + 1 }, true))
    ∧ (s.maxLogsPerSecond ≠ 0 → s.rateLimitMutex = true → env.rateLockOk = true →
        elapsed32 env.now s.lastLogTime < RATE_LIMIT_WINDOW_MS →
        s.maxLogsPerSecond ≤ s.logCounter →
        s.checkRateLimit env = ({ s with droppedLogs := s.droppedLogs + 1 }, false))
    ∧ (s.maxLogsPerSecond ≠ 0 → s.rateLimitMutex = true → env.rateLockOk = false →
        s.checkRateLimit env = ({ s with mutexTimeouts := s.mutexTimeouts + 1 }, false)) := by
  unfold Logger.checkRateLimit
  refine ⟨?_, ?_, ?_, ?_, ?_⟩
  · intro h1
    simp [h1]
  · intro h1 h2 h3 h4
    simp [h1, h2, h3, h4]
  · intro h1 h2 h3 h4 h5
    simp [h1, h2, h3, Nat.not_le.mpr h4, h5]
  · intro h1 h2 h3 h4 h5
    simp [h1, h2, h3, Nat.not_le.mpr h4, Nat.not_lt.mpr h5]
  · intro h1 h2 h3
    simp [h1, h2, h3]

theorem c2_rate_limit_fixed_window_witness :
    Logger.checkRateLimit sampleLogger sampleEnv
      = ({ sampleLogger with logCounter := 4 }, true) :=
  (c2_rate_limit_fixed_window sampleLogger sampleEnv).2.2.1
    (by decide) rfl rfl (by decide) (by decide)

/-- C8: when the rate-limit mutex was never created (scheduler not yet
started), `checkRateLimit` admits unconditionally for every positive
`maxLogsPerSecond` and the state (window count, dropped-log counter) is
untouched: rate limiting fails open before the scheduler starts. -/
theorem c8_rate_limit_fails_open_without_mutex (s : Logger) (env : Env)
    (hmax : 0 < s.maxLogsPerSecond) (hmutex : s.rateLimitMutex = false) :
    s.checkRateLimit env = (s, true) := by
  unfold Logger.checkRateLimit
  simp [hmutex, Nat.pos_iff_ne_zero.mp hmax]

theorem c8_rate_limit_fails_open_without_mutex_witness :
    Logger.checkRateLimit { sampleLogger with rateLimitMutex := false } sampleEnv
      = ({ sampleLogger with rateLimitMutex := false }, true) :=
  c8_rate_limit_fails_open_without_mutex _ _ (by decide) rfl

/-- C7 counterexample: the elapsed computation is wrapping, but a wrapped
pair of timestamps need not produce a large elapsed value nor trigger the
window reset: at `currentTime = 0`, `lastLogTime = 2^32 - 1` the elapsed
value is 1 (< 1000), and `checkRateLimit` takes the in-window counter
branch, not the reset branch. -/
theorem c7_counterexample :
    ¬ (∀ currentTime lastLogTime : Nat, currentTime < UINT32_MOD →
         lastLogTime < UINT32_MOD → currentTime < lastLogTime →
         RATE_LIMIT_WINDOW_MS ≤ elapsed32 currentTime lastLogTime)
    ∧ elapsed32 0 (UINT32_MOD - 1) = 1
    ∧ Logger.checkRateLimit { sampleLogger with lastLogTime := UINT32_MOD - 1 }
        { sampleEnv with now := 0 }
      = ({ sampleLogger with lastLogTime := UINT32_MOD - 1, logCounter := 4 }, true) := by
  refine ⟨fun h => ?_, by decide, by decide⟩
  exact absurd (h 0 (UINT32_MOD - 1) (by decide) (by decide) (by decide)) (by decide)

/-- C7 (amended): the rate limiter computes elapsed time as wrapping
32-bit unsigned subtraction, so the result is always a value in
[0, 2^32); for 32-bit timestamps it equals the true elapsed time modulo
2^32, and whenever at least one window (1000 ms, and less than 2^32 ms) of
real time has passed — including when the timer wrapped so that
`currentTime` is numerically smaller than `lastLogTime` — the computed
elapsed reaches the window bound and `checkRateLimit` takes the reset
branch, never seeing a negative duration. -/
theorem c7_wrapping_elapsed (last d : Nat) (hlast : last < UINT32_MOD)
    (hd : d < UINT32_MOD) :
    (∀ c l : Nat, elapsed32 c l < UINT32_MOD)
    ∧ elapsed32 ((last + d) % UINT32_MOD) last = d
    ∧ (∀ (s : Logger) (env : Env), s.lastLogTime = last →
        env.now = (last + d) % UINT32_MOD → s.maxLogsPerSecond ≠ 0 →
        s.rateLimitMutex = true → env.rateLockOk = true →
        RATE_LIMIT_WINDOW_MS ≤ d →
        s.checkRateLimit env =
          ({ s with lastLogTime := env.now, logCounter := 1 }, true)) := by
  have hmod : ∀ c l : Nat, elapsed32 c l < UINT32_MOD := by
    intro c l
    unfold elapsed32 UINT32_MOD
    omega
  have heq : elapsed32 ((last + d) % UINT32_MOD) last = d := by
    unfold elapsed32 UINT32_MOD at *
    omega
  refine ⟨hmod, heq, ?_⟩
  intro s env hlt hnow hmax hmx hlk hwin
  have := (c2_rate_limit_fixed_window s env).2.1 hmax hmx hlk
    (by rw [hnow, hlt, heq]; exact hwin)
  exact this

theorem c7_wrapping_elapsed_witness :
    elapsed32 ((4294967000 + 1500) % UINT32_MOD) 4294967000 = 1500 :=
  (c7_wrapping_elapsed 4294967000 1500 (by decide) (by decide)).2.1

/-- C3: `logDirect` applies tag/level filtering and subscriber
notification but never consults rate admission: for every logger state —
in particular for every rate-limiter window state (`lastLogTime`,
`logCounter`, `maxLogsPerSecond`) — a non-null message that passes
`isLevelEnabledForTag` is handed to `notifySubscribers`, and when the
composition buffer is available and the backend lock is acquired its
composed record is handed to the backend fan-out; the state, including
the dropped-log counter, is returned unchanged. -/
theorem c3_logDirect_bypasses_rate_admission (s : Logger) (env : Env)
    (level : LogLevel) (tag : Option (List Nat)) (m : List Nat)
    (hfil : s.isLevelEnabledForTag env tag level = true) :
    (s.logDirect env level tag (some m)).1 = s
    ∧ (s.logDirect env level tag (some m)).1.droppedLogs = s.droppedLogs
    ∧ (s.logDirect env level tag (some m)).2.notify =
        some (s.notifySubscribers env level tag (some m))
    ∧ (env.msgBufferOk = true → env.backendLockOk = true →
        (s.logDirect env level tag (some m)).2.writeOut =
          some (composeRecord env level tag m)) := by
  unfold Logger.logDirect
  refine ⟨?_, ?_, ?_, ?_⟩
  · simp only [hfil, Bool.not_true, Bool.false_eq_true, if_false]
    cases env.msgBufferOk <;> simp
  · simp only [hfil, Bool.not_true, Bool.false_eq_true, if_false]
    cases env.msgBufferOk <;> simp
  · simp only [hfil, Bool.not_true, Bool.false_eq_true, if_false]
    cases env.msgBufferOk <;> simp
  · intro hbuf hbl
    simp [hfil, hbuf, Logger.writeToBackends, hbl]

theorem c3_logDirect_bypasses_rate_admission_witness :
    (Logger.logDirect sampleLogger sampleEnv LogLevel.error (some [65, 66]) (some [104, 105])).1
      = sampleLogger
    ∧ (Logger.logDirect sampleLogger sampleEnv LogLevel.error (some [65, 66]) (some [104, 105])).2.writeOut
      = some (composeRecord sampleEnv LogLevel.error (some [65, 66]) [104, 105]) := by
  have h := c3_logDirect_bypasses_rate_admission sampleLogger sampleEnv LogLevel.error
    (some [65, 66]) [104, 105] (by decide)
  exact ⟨h.1, h.2.2.2 rfl rfl⟩

/-- C4 counterexample: a `logV` call with a NULL tag is not a no-op.  At a
concrete enabled state (global level INFO, rate window open, subscribers
registered, queue present) the call hands a record to the backend fan-out,
invokes the subscriber-notification step, and changes the rate-limiter
count — refuting "no backend write, no subscriber notification, no
counter change". -/
theorem c4_counterexample :
    (Logger.logV sampleLogger sampleEnv LogLevel.info Option.none (some [120])).2.writeOut
      ≠ Option.none
    ∧ (Logger.logV sampleLogger sampleEnv LogLevel.info Option.none (some [120])).2.notify
      ≠ Option.none
    ∧ (Logger.logV sampleLogger sampleEnv LogLevel.info Option.none (some [120])).1
      ≠ sampleLogger := by
  decide

/-- C4 (amended): `log`/`logV` do not reject a null tag: a null tag is
filtered against the global level and, when filtering and rate admission
pass and the buffers are available, the record is composed with "?"
(byte 63) substituted in the tag position and handed to the backends;
and `logV` contains no null check of the format string — the call
proceeds the same way whether `format` is null or not (the null format
reaches the formatter unguarded; only the ESP-IDF redirect shim checks
its format pointer). -/
theorem c4_null_tag_logs_with_question_mark (s : Logger) (env : Env)
    (level : LogLevel) (format : Option (List Nat))
    (hen : s.isLoggingEnabled = true) (hlvl : level ≠ LogLevel.none)
    (hle : level.toNat ≤ s.globalLogLevel.toNat)
    (hmax : s.maxLogsPerSecond = 0)
    (hfb : env.fmtBufferOk = true) (hmb : env.msgBufferOk = true)
    (hbl : env.backendLockOk = true) :
    (s.logV env level Option.none format).2.writeOut =
      some (composeRecord env level Option.none (vsnprintfModel format))
    ∧ (composeRecord env level Option.none (vsnprintfModel format)).tag = [63] := by
  have hfil : s.isLevelEnabledForTag env Option.none level = true := by
    simp [Logger.isLevelEnabledForTag, hen, hlvl, hle]
  constructor
  · unfold Logger.logV
    simp [hfil, Logger.checkRateLimit, hmax, hfb, hmb, Logger.writeToBackends, hbl]
  · simp [composeRecord]

theorem c4_null_tag_logs_with_question_mark_witness :
    (Logger.logV { sampleLogger with maxLogsPerSecond := 0 } sampleEnv LogLevel.info
        Option.none (some [120])).2.writeOut =
      some (composeRecord sampleEnv LogLevel.info Option.none (vsnprintfModel (some [120])))
    ∧ (composeRecord sampleEnv LogLevel.info Option.none (vsnprintfModel (some [120]))).tag
      = [63] :=
  c4_null_tag_logs_with_question_mark { sampleLogger with maxLogsPerSecond := 0 } sampleEnv
    LogLevel.info (some [120]) rfl (by decide) (by decide) rfl rfl rfl rfl

/-- C5: for a non-null message of positive length, the non-blocking
backend `write`: with capacity below the 20-byte minimum the whole
message is dropped, the dropped-message counter increments by exactly one
and the dropped-byte counter by the message length; with capacity at
least the minimum but below the message length it writes the first
(capacity - marker-length) bytes followed by the fixed "...\r\n"
truncation marker and increments the partial-write counter by one; with
capacity at least the minimum and at least the message length the full
message is written and no counter moves.  (The cases are read in the
source's order: the drop case takes precedence.) -/
theorem c5_nonblocking_write_cases (st : NonBlockingConsoleBackend)
    (m : List Nat) (available : Nat) (hm : 0 < m.length) :
    (available < MIN_BUFFER_SPACE →
      st.write (some m) available =
        ({ st with droppedMessages := st.droppedMessages + 1
                   droppedBytes := st.droppedBytes + m.length }, []))
    ∧ (MIN_BUFFER_SPACE ≤ available → available < m.length →
        st.write (some m) available =
          ({ st with partialWrites := st.partialWrites + 1
                     droppedBytes :=
                       st.droppedBytes + (m.length - (available - TRUNCATION_MARKER_LEN)) },
           m.take (available - TRUNCATION_MARKER_LEN) ++ TRUNCATION_MARKER))
    ∧ (MIN_BUFFER_SPACE ≤ available → m.length ≤ available →
        st.write (some m) available = (st, m)) := by
  unfold NonBlockingConsoleBackend.write
  have hm0 : m.length ≠ 0 := Nat.pos_iff_ne_zero.mp hm
  refine ⟨?_, ?_, ?_⟩
  · intro h1
    simp [hm0, h1]
  · intro h1 h2
    have h5 : 0 < available - TRUNCATION_MARKER_LEN := by
      simp only [MIN_BUFFER_SPACE] at h1
      simp only [TRUNCATION_MARKER_LEN]
      omega
    simp [hm0, Nat.not_lt.mpr h1, Nat.not_le.mpr h2, h5]
  · intro h1 h2
    simp [hm0, Nat.not_lt.mpr h1, h2]

theorem c5_nonblocking_write_cases_witness :
    NonBlockingConsoleBackend.write ⟨0, 0, 0⟩ (some (List.replicate 30 65)) 25
      = (⟨10, 0, 1⟩, List.replicate 20 65 ++ TRUNCATION_MARKER) :=
  ((c5_nonblocking_write_cases ⟨0, 0, 0⟩ (List.replicate 30 65) 25 (by decide)).2.1
      (by decide) (by decide)).trans (by decide)

/-- C9: every notification enqueued for the subscriber worker is a
bounded truncated copy: the queued tag field is the prefix of the
original tag of at most 31 bytes (the empty string for a NULL tag), the
queued message field is the prefix of the original message of at most
199 bytes (the empty string for a NULL message), and the level is copied
verbatim — so a queued record copies, never references or exceeds, the
caller's buffers. -/
theorem c9_queued_notification_bounded (s : Logger) (env : Env)
    (level : LogLevel) (tag message : Option (List Nat)) (m : LogSubscriberMessage)
    (h : s.notifySubscribers env level tag message = NotifyOutcome.queued m) :
    m.level = level
    ∧ m.tag = (tag.getD []).take 31
    ∧ m.tag.length ≤ 31
    ∧ m.message = (message.getD []).take 199
    ∧ m.message.length ≤ 199
    ∧ (tag = Option.none → m.tag = [])
    ∧ (message = Option.none → m.message = []) := by
  unfold Logger.notifySubscribers at h
  split at h
  · exact absurd h (by simp)
  · split at h
    · exact absurd h (by simp)
    · split at h
      · split at h
        · injection h with hm
          subst hm
          refine ⟨rfl, by simp [CONFIG_LOG_SUBSCRIBER_TAG_SIZE], ?_,
            by simp [CONFIG_LOG_SUBSCRIBER_MSG_SIZE], ?_, ?_, ?_⟩
          · simp [CONFIG_LOG_SUBSCRIBER_TAG_SIZE]
          · simp [CONFIG_LOG_SUBSCRIBER_MSG_SIZE]
          · intro ht; subst ht; simp
          · intro hmsg; subst hmsg; simp
        · exact absurd h (by simp)
      · split at h
        · exact absurd h (by simp)
        · exact absurd h (by simp)

theorem c9_queued_notification_bounded_witness :
    (⟨LogLevel.info, [65], [104]⟩ : LogSubscriberMessage).tag
        = ((some [65] : Option (List Nat)).getD []).take 31
    ∧ (⟨LogLevel.info, [65], [104]⟩ : LogSubscriberMessage).tag.length ≤ 31
    ∧ (⟨LogLevel.info, [65], [104]⟩ : LogSubscriberMessage).message.length ≤ 199 := by
  have h := c9_queued_notification_bounded sampleLogger sampleEnv LogLevel.info
    (some [65]) (some [104]) ⟨LogLevel.info, [65], [104]⟩ (by decide)
  exact ⟨h.2.1, h.2.2.1, h.2.2.2.2.1⟩


theorem removeFirstCallback_eq_erase (l : List Nat) (c : Nat) :
    removeFirstCallback l c = l.erase c := by
  induction l with
  | nil => rfl
  | cons x rest ih =>
      by_cases hx : x = c
      · simp [removeFirstCallback, hx, List.erase_cons]
      · simp [removeFirstCallback, hx, List.erase_cons, ih]

/-- C10: the subscriber registry invariant: at most 4 registered,
pairwise-distinct callbacks (slots below the count are non-null by
construction of the model: a NULL callback is rejected before
registration).  `addLogSubscriber` returns false leaving the registry
unchanged for a null callback, a duplicate, or a full registry;
`removeLogSubscriber` returns false for a null or unregistered callback;
a successful removal removes exactly the first matching slot and shifts
the remaining callbacks down, preserving their relative order
(`List.erase`); both operations preserve the invariant. -/
theorem c10_subscriber_registry (s : Logger) (env : Env) (cb : Option Nat)
    (hlen : s.subscribers.length ≤ Logger.MAX_SUBSCRIBERS)
    (hnd : s.subscribers.Nodup) :
    ((s.addLogSubscriber env cb).1.subscribers.length ≤ Logger.MAX_SUBSCRIBERS
      ∧ (s.addLogSubscriber env cb).1.subscribers.Nodup)
    ∧ ((s.removeLogSubscriber env cb).1.subscribers.length ≤ Logger.MAX_SUBSCRIBERS
      ∧ (s.removeLogSubscriber env cb).1.subscribers.Nodup)
    ∧ (cb = Option.none →
        s.addLogSubscriber env cb = (s, false)
        ∧ s.removeLogSubscriber env cb = (s, false))
    ∧ (∀ c, cb = some c → c ∈ s.subscribers → s.addLogSubscriber env cb = (s, false))
    ∧ (∀ c, cb = some c → s.subscribers.length = Logger.MAX_SUBSCRIBERS →
        s.addLogSubscriber env cb = (s, false))
    ∧ (∀ c, cb = some c → c ∉ s.subscribers → s.removeLogSubscriber env cb = (s, false))
    ∧ (∀ c, cb = some c → (s.removeLogSubscriber env cb).2 = true →
        (s.removeLogSubscriber env cb).1.subscribers = s.subscribers.erase c) := by
  refine ⟨?_, ?_, ?_, ?_, ?_, ?_, ?_⟩
  · cases cb with
    | none => exact ⟨hlen, hnd⟩
    | some c =>
        unfold Logger.addLogSubscriber
        cases hq : (s.subscriberMutex && !env.subscriberLockOk) with
        | true => simp only [hq, if_true]; exact ⟨hlen, hnd⟩
        | false =>
            by_cases hfull : s.subscribers.length < Logger.MAX_SUBSCRIBERS
            · by_cases hmem : c ∈ s.subscribers
              · have hc : s.subscribers.contains c = true := by simp [hmem]
                simp only [hq, Bool.false_eq_true, if_false, if_pos hfull, hc, if_true]
                exact ⟨hlen, hnd⟩
              · have hc : s.subscribers.contains c = false := by simp [hmem]
                simp only [hq, Bool.false_eq_true, if_false, if_pos hfull, hc]
                refine ⟨?_, ?_⟩
                · simp only [List.length_append, List.length_singleton]
                  omega
                · simp [List.nodup_append, hnd, hmem]
            · simp only [hq, Bool.false_eq_true, if_false, if_neg hfull]
              exact ⟨hlen, hnd⟩
  · cases cb with
    | none => exact ⟨hlen, hnd⟩
    | some c =>
        unfold Logger.removeLogSubscriber
        cases hq : (s.subscriberMutex && !env.subscriberLockOk) with
        | true => simp only [hq, if_true]; exact ⟨hlen, hnd⟩
        | false =>
            by_cases hmem : c ∈ s.subscribers
            · have hc : s.subscribers.contains c = true := by simp [hmem]
              simp only [hq, Bool.false_eq_true, if_false, hc, if_true]
              rw [removeFirstCallback_eq_erase]
              refine ⟨?_, hnd.erase c⟩
              have := List.length_erase_add_one hmem
              omega
            · have hc : s.subscribers.contains c = false := by simp [hmem]
              simp only [hq, Bool.false_eq_true, if_false, hc]
              exact ⟨hlen, hnd⟩
  · intro hcb; subst hcb; exact ⟨rfl, rfl⟩
  · intro c hcb hmem; subst hcb
    unfold Logger.addLogSubscriber
    have hc : s.subscribers.contains c = true := by simp [hmem]
    cases hq : (s.subscriberMutex && !env.subscriberLockOk) with
    | true => simp [hq]
    | false =>
        by_cases hfull : s.subscribers.length < Logger.MAX_SUBSCRIBERS
        · simp [hq, hfull, hc, hmem]
        · simp [hq, hfull]
  · intro c hcb hfull; subst hcb
    unfold Logger.addLogSubscriber
    have hnlt : ¬ s.subscribers.length < Logger.MAX_SUBSCRIBERS := by omega
    cases hq : (s.subscriberMutex && !env.subscriberLockOk) with
    | true => simp [hq]
    | false => simp [hq, hnlt]
  · intro c hcb hmem; subst hcb
    unfold Logger.removeLogSubscriber
    have hc : s.subscribers.contains c = false := by simp [hmem]
    cases hq : (s.subscriberMutex && !env.subscriberLockOk) with
    | true => simp [hq]
    | false => simp [hq, hc, hmem]
  · intro c hcb hres; subst hcb
    unfold Logger.removeLogSubscriber at hres ⊢
    cases hq : (s.subscriberMutex && !env.subscriberLockOk) with
    | true => simp [hq] at hres
    | false =>
        by_cases hmem : c ∈ s.subscribers
        · have hc : s.subscribers.contains c = true := by simp [hmem]
          simp [hq, hc, hmem, removeFirstCallback_eq_erase]
        · simp [hq, hmem] at hres

theorem c10_subscriber_registry_witness :
    (Logger.addLogSubscriber sampleLogger sampleEnv (some 11)) = (sampleLogger, false)
    ∧ (Logger.removeLogSubscriber sampleLogger sampleEnv (some 11)).1.subscribers
        = sampleLogger.subscribers.erase 11 := by
  have h := c10_subscriber_registry sampleLogger sampleEnv (some 11) (by decide) (by decide)
  exact ⟨h.2.2.2.1 11 rfl (by decide), h.2.2.2.2.2.2 11 rfl (by decide)⟩

theorem strncmpEq32_iff {a b : List Nat} (h : a.length ≤ 31) :
    strncmpEq a b CONFIG_LOG_SUBSCRIBER_TAG_SIZE = true ↔ a = b :=
  strncmpEq_eq_iff CONFIG_LOG_SUBSCRIBER_TAG_SIZE a b
    (by simp only [CONFIG_LOG_SUBSCRIBER_TAG_SIZE]; omega)

theorem doSetTagLevel_not_mem (l : List TagEntry) (t stored : List Nat)
    (lvl : LogLevel) (can : Bool)
    (hwf : ∀ e ∈ l, e.tag.length ≤ 31)
    (hmem : t ∉ l.map TagEntry.tag) :
    doSetTagLevel t stored lvl can l = if can then l ++ [⟨stored, lvl⟩] else l := by
  induction l with
  | nil =>
      cases can <;> simp [doSetTagLevel]
  | cons e rest ih =>
      have hcase : e.tag ≠ t := fun h => hmem (by simp [h])
      have hne : ¬ strncmpEq e.tag t CONFIG_LOG_SUBSCRIBER_TAG_SIZE = true := fun hc =>
        hcase ((strncmpEq32_iff (hwf e (List.mem_cons_self e rest))).mp hc)
      have hrest : t ∉ rest.map TagEntry.tag := fun h => hmem (List.mem_cons_of_mem _ h)
      have hrwf : ∀ x ∈ rest, x.tag.length ≤ 31 := fun x hx =>
        hwf x (List.mem_cons_of_mem e hx)
      simp only [doSetTagLevel, if_neg hne, ih hrwf hrest]
      cases can <;> simp

theorem doSetTagLevel_mem (l : List TagEntry) (t stored : List Nat)
    (lvl : LogLevel) (can : Bool)
    (hwf : ∀ e ∈ l, e.tag.length ≤ 31)
    (hmem : t ∈ l.map TagEntry.tag) :
    (doSetTagLevel t stored lvl can l).map TagEntry.tag = l.map TagEntry.tag
    ∧ lookupTagLevel (doSetTagLevel t stored lvl can l) t = some lvl
    ∧ ∀ u, u ≠ t →
        lookupTagLevel (doSetTagLevel t stored lvl can l) u = lookupTagLevel l u := by
  induction l with
  | nil => simp at hmem
  | cons e rest ih =>
      have hewf := hwf e (List.mem_cons_self e rest)
      have hrwf : ∀ x ∈ rest, x.tag.length ≤ 31 := fun x hx =>
        hwf x (List.mem_cons_of_mem e hx)
      by_cases hcase : e.tag = t
      · have htrue : strncmpEq e.tag t CONFIG_LOG_SUBSCRIBER_TAG_SIZE = true :=
          (strncmpEq32_iff hewf).mpr hcase
        refine ⟨by simp [doSetTagLevel, htrue], ?_, ?_⟩
        · simp [doSetTagLevel, htrue, lookupTagLevel]
        · intro u hu
          have hneu : ¬ strncmpEq e.tag u CONFIG_LOG_SUBSCRIBER_TAG_SIZE = true := fun hc =>
            hu (((strncmpEq32_iff hewf).mp hc) ▸ hcase.symm).symm
          simp [doSetTagLevel, htrue, lookupTagLevel, hneu]
      · have hne : ¬ strncmpEq e.tag t CONFIG_LOG_SUBSCRIBER_TAG_SIZE = true := fun hc =>
          hcase ((strncmpEq32_iff hewf).mp hc)
        have hrest : t ∈ rest.map TagEntry.tag := by
          rcases (List.mem_map.mp hmem) with ⟨x, hx, hxt⟩
          rcases List.mem_cons.mp hx with h | h
          · exact absurd (h ▸ hxt) hcase
          · exact List.mem_map.mpr ⟨x, h, hxt⟩
        obtain ⟨ihm, ihl, ihu⟩ := ih hrwf hrest
        refine ⟨by simp [doSetTagLevel, hne, ihm], ?_, ?_⟩
        · simp [doSetTagLevel, hne, lookupTagLevel, ihl]
        · intro u hu
          by_cases heu : strncmpEq e.tag u CONFIG_LOG_SUBSCRIBER_TAG_SIZE = true
          · simp [doSetTagLevel, hne, lookupTagLevel, heu]
          · simp [doSetTagLevel, hne, lookupTagLevel, heu, ihu u hu]

/-- C6 counterexample: with a tag of length 32 (the tag-size bound) the
tag table does not keep at most one entry per tag: `setTagLevel` stores a
copy truncated to 31 bytes but looks the tag up untruncated, so the
second `setTagLevel` call on the same 32-byte tag fails to find the first
call's entry, appends a second entry with an identical stored tag string,
and changes the entry count — refuting in-place update and the
one-entry-per-tag invariant at this concrete input. -/
theorem c6_counterexample :
    ((({ sampleLogger with tagLevels := [], tagMutex := false }).setTagLevel sampleEnv
          (some (List.replicate 32 5)) LogLevel.debug).setTagLevel sampleEnv
        (some (List.replicate 32 5)) LogLevel.error).tagLevels
      = [⟨List.replicate 31 5, LogLevel.debug⟩, ⟨List.replicate 31 5, LogLevel.error⟩] := by
  decide

/-- C6 (amended): for tags shorter than the 32-byte tag-size bound
(length at most 31 bytes) the table keeps at most one entry per tag:
`setTagLevel` on a tag that already has an entry updates that entry's
level in place — the tag sequence (hence the entry count and order) is
unchanged, the tag now looks up to the new level, and every other tag
looks up unchanged; on a new tag it appends an entry only while the
count is below the capacity of 32; once the table is full it leaves the
table unchanged (no eviction).  Tags of length 32 or more are stored
truncated to 31 bytes but looked up untruncated, so re-setting such a
tag appends a duplicate truncated entry instead of updating (see the
counterexample). -/
theorem c6_tag_table_update (s : Logger) (env : Env) (t : List Nat) (lvl : LogLevel)
    (ht : t.length ≤ 31) (hne : t ≠ [])
    (hwf : ∀ e ∈ s.tagLevels, e.tag.length ≤ 31)
    (hnd : (s.tagLevels.map TagEntry.tag).Nodup)
    (hlock : s.tagMutex = false ∨ env.tagLockOk = true) :
    ((s.setTagLevel env (some t) lvl).tagLevels.map TagEntry.tag).Nodup
    ∧ (t ∈ s.tagLevels.map TagEntry.tag →
        (s.setTagLevel env (some t) lvl).tagLevels.map TagEntry.tag
            = s.tagLevels.map TagEntry.tag
        ∧ lookupTagLevel (s.setTagLevel env (some t) lvl).tagLevels t = some lvl
        ∧ ∀ u, u ≠ t →
            lookupTagLevel (s.setTagLevel env (some t) lvl).tagLevels u
              = lookupTagLevel s.tagLevels u)
    ∧ (t ∉ s.tagLevels.map TagEntry.tag → s.tagLevels.length < CONFIG_LOG_MAX_TAGS →
        (s.setTagLevel env (some t) lvl).tagLevels = s.tagLevels ++ [⟨t, lvl⟩])
    ∧ (t ∉ s.tagLevels.map TagEntry.tag → ¬ s.tagLevels.length < CONFIG_LOG_MAX_TAGS →
        (s.setTagLevel env (some t) lvl).tagLevels = s.tagLevels) := by
  have hlen0 : ¬ t.length = 0 := by simpa using hne
  have hstored : t.take (CONFIG_LOG_SUBSCRIBER_TAG_SIZE - 1) = t :=
    List.take_of_length_le (by simp only [CONFIG_LOG_SUBSCRIBER_TAG_SIZE]; omega)
  have hset : (s.setTagLevel env (some t) lvl).tagLevels =
      doSetTagLevel t t lvl (decide (s.tagLevels.length < CONFIG_LOG_MAX_TAGS))
        s.tagLevels := by
    unfold Logger.setTagLevel
    rcases hlock with h | h
    · simp [hlen0, h, hstored]
    · cases hm : s.tagMutex <;> simp [hlen0, h, hm, hstored]
  rw [hset]
  by_cases hmem : t ∈ s.tagLevels.map TagEntry.tag
  · obtain ⟨hmap, hlook, hother⟩ :=
      doSetTagLevel_mem s.tagLevels t t lvl
        (decide (s.tagLevels.length < CONFIG_LOG_MAX_TAGS)) hwf hmem
    exact ⟨hmap ▸ hnd, fun _ => ⟨hmap, hlook, hother⟩,
      fun h _ => absurd hmem h, fun h _ => absurd hmem h⟩
  · rw [doSetTagLevel_not_mem s.tagLevels t t lvl _ hwf hmem]
    by_cases hcan : s.tagLevels.length < CONFIG_LOG_MAX_TAGS
    · rw [if_pos (by simp [hcan])]
      refine ⟨?_, fun h => absurd h hmem, fun _ _ => rfl, fun _ h => absurd hcan h⟩
      simp [List.nodup_append, hnd, hmem]
    · rw [if_neg (by simp [hcan])]
      exact ⟨hnd, fun h => absurd h hmem, fun _ h => absurd h hcan, fun _ _ => rfl⟩

theorem c6_tag_table_update_witness :
    lookupTagLevel ((Logger.setTagLevel sampleLogger sampleEnv (some [65, 66])
        LogLevel.warn).tagLevels) [65, 66] = some LogLevel.warn := by
  have h := c6_tag_table_update sampleLogger sampleEnv [65, 66] LogLevel.warn
    (by decide) (by decide) (by decide) (by decide) (Or.inr rfl)
  exact (h.2.1 (by decide)).2.1
